import Mathlib

/-!
Verification development for the VIO pipeline orchestrator (`Pipeline.cpp`).

The orchestrator is embedded as a pure state machine: each entry point
(`spin`, `spinOnce`, `processKeyframe`, `shutdown`, `spinDisplayOnce`)
returns its successor state together with the list of observable events it
performs (queue pushes and pops, backend queries, mesh construction, display
calls, warnings, thread joins).  External collaborators (Frontend, Backend,
Mesher, Visualizer, the thread-safe queues) are outside the translated
source; their behaviour relevant to the orchestrator is modelled from the
specification as oracles carried in a `WorldModel`.
-/

namespace Kimera

/-- Timestamps are nanosecond counts in the source; modelled as naturals. -/
abbrev Timestamp := Nat

/-- Model of one inertial sample: six components (three accelerometer, three
gyroscope), i.e. one column of `ImuAccGyrS`. -/
structure ImuSample where
  ax : Int
  ay : Int
  az : Int
  gx : Int
  gy : Int
  gz : Int
  deriving DecidableEq, Repr

/-- Model of `StereoImuSyncPacket`: a frame id, the frame timestamp, and the
packet's inertial window (`ImuStampS` and `ImuAccGyrS` columns, aligned). -/
structure StereoImuSyncPacket where
  frameId : Nat
  timestamp : Timestamp
  imu_stamps : List Timestamp
  imu_accgyr : List ImuSample
  deriving DecidableEq, Repr

/-- Model of `StatusSmartStereoMeasurements`, the tracking result that
`StereoVisionFrontEnd::processStereoFrame` returns for one frame.  The
measurement content is kept abstract; `frameId` records which frame's
processing produced the value (the spec states one result is produced per
frame and consumed immediately). -/
structure StatusSmartStereoMeasurements where
  frameId : Nat
  trackerStatus : Nat
  smartMeasurements : List Nat
  deriving DecidableEq, Repr

/-- Model of the `VisualizationType` values handled by the visualization
switch in `Pipeline::processKeyframe` (the spec's closed enumeration). -/
inductive VisualizationType where
  | pointcloud
  | pointcloudRepeatedpoints
  | mesh2d
  | mesh2dSparse
  | mesh2dTo3dSparse
  | none
  deriving DecidableEq, Repr

/-- Model of `MesherOutputPayload`; a default-constructed value has empty
meshes. -/
structure MesherOutputPayload where
  mesh_2d : List Nat := []
  mesh_3d : List Nat := []
  deriving DecidableEq, Repr

/-- Model of `VioBackEndInputPayload` as built in `processKeyframe`. -/
structure VioBackEndInputPayload where
  timestamp : Timestamp
  statusSmartStereoMeasurements : StatusSmartStereoMeasurements
  kfTrackingStatus_stereo : Nat
  imu_stamps : List Timestamp
  imu_accgyr : List ImuSample
  relativePoseBodyStereo : Nat
  deriving DecidableEq, Repr

/-- Model of `VisualizerInputPayload` as built in `processKeyframe`. -/
structure VisualizerInputPayload where
  visualization_type : VisualizationType
  mesh_2d : List Nat
  mesh_3d_colors : Nat
  mesher_output_payload : MesherOutputPayload
  points_with_id : List Nat
  lmk_id_to_lmk_type_map : List Nat
  points_3d : List Nat
  timestamp : Timestamp
  deriving DecidableEq, Repr

/-- Model of `VisualizerOutputPayload` consumed by `spinDisplayOnce`. -/
structure VisualizerOutputPayload where
  visualization_type : VisualizationType
  images_to_display : List Nat
  deriving DecidableEq, Repr

/-- The six directed pipeline channels. -/
inductive QueueId where
  | backendInput
  | backendOutput
  | mesherInput
  | mesherOutput
  | visualizerInput
  | visualizerOutput
  deriving DecidableEq, Repr

/-- The three worker threads spawned by `launchThreads`. -/
inductive WorkerId where
  | backend
  | mesher
  | visualizer
  deriving DecidableEq, Repr

/-- Observable actions of the orchestrator, in program order. -/
inductive Event where
  | initPipeline (frameId : Nat)
  | launchThreads
  | preintegrateGyroMeasurements (windowLen : Nat)
  | frontendProcess (frameId : Nat)
  | featureSelect
  | logFatalFeatureSelection
  | pushBackendInput (p : VioBackEndInputPayload)
  | pop (q : QueueId) (blocking : Bool)
  | getMapLmkIdsTo3dPointsInTimeHorizon (minObsFiltered : Bool) (withLmkTypeMap : Bool)
  | get3DPoints
  | createMesh2D
  | createMesh2dStereo
  | pushMesherInput
  | warnMesherOutputMissing
  | pushVisualizerInput (p : VisualizerInputPayload)
  | windowSpinOnce
  | displayImages (n : Nat)
  | warnVisualizerLagging
  | setShutdownFlag
  | shutdownQueue (q : QueueId)
  | shutdownWorker (w : WorkerId)
  | joinThread (w : WorkerId)
  | closeLogFiles
  deriving DecidableEq, Repr

/-- The gflags consulted by `Pipeline.cpp`, fixed for a run. -/
structure Config where
  log_output : Bool := false
  parallel_run : Bool := true
  visualize : Bool := true
  visualize_lmk_type : Bool := false
  viz_type : VisualizationType := VisualizationType.pointcloud
  use_feature_selection : Bool := false
  min_num_obs_for_mesher_points : Nat := 4
  deriving Repr

/-- Modelled from the spec: the external `StereoVisionFrontEnd`.  `process`
produces the TrackingResult for the current frame; `isKeyframe` is the
keyframe flag the Frontend reports for each frame.  The pipeline's check of
the previous stereo frame's keyframe flag reads, per the spec's one-frame-lag
rule, the flag reported for the frame processed before the current one. -/
structure FrontendModel where
  isKeyframe : Nat → Bool
  trackerStatus : Nat → Nat
  smartMeasurements : Nat → List Nat
  kfTrackingStatus_stereo : Nat
  relativePoseBodyStereo : Nat
  mesh2dOfLkf : List Nat
  mesh2dStereoOfLkf : List Nat

/-- Modelled from the spec: the TrackingResult the Frontend computes when
processing frame `k`. -/
def FrontendModel.processStereoFrame (fe : FrontendModel) (k : Nat) :
    StatusSmartStereoMeasurements :=
  { frameId := k
    trackerStatus := fe.trackerStatus k
    smartMeasurements := fe.smartMeasurements k }

/-- Modelled from the spec: results of the external Backend's query
operations used during keyframe dispatch. -/
structure BackendModel where
  lmkMapFullHorizon : List Nat
  lmkMapMinObsFiltered : List Nat
  lmkTypeMap : List Nat
  points3d : List Nat

/-- Modelled from the spec: everything outside the orchestrator that the
translated code observes — the Frontend and Backend oracles, the values the
worker output channels deliver (`Option.none` models a pop that returns the
empty/failure indicator), the feature selector, the optional semantic
segmentation callback, and the dataset's first keyframe timestamp. -/
structure WorldModel where
  frontend : FrontendModel
  backend : BackendModel
  mesherPop : Option MesherOutputPayload
  visualizerPop : Option VisualizerOutputPayload
  featureSelectResult : StatusSmartStereoMeasurements → StatusSmartStereoMeasurements
  semanticCallback : Option (List Nat → List Nat → Nat)
  timestamp_first_lkf : Timestamp

/-- The IMU accumulation step of `Pipeline::spinOnce` on the timestamp row:
when the buffer is empty the packet's window is stored verbatim, otherwise
the buffer's final (interpolated boundary) column is dropped and the packet's
full window is appended. -/
def accumulateImuStamps (buf new : List Timestamp) : List Timestamp :=
  if buf.length = 0 then new else buf.dropLast ++ new

/-- Folding the accumulation step over the successive packet windows since a
keyframe reset (the buffer starts empty after a reset). -/
def accumulateImuRun (ws : List (List Timestamp)) : List Timestamp :=
  ws.foldl accumulateImuStamps []

theorem accumulateImuStamps_nil (new : List Timestamp) :
    accumulateImuStamps [] new = new := by
  simp [accumulateImuStamps]

theorem accumulateImuStamps_length (buf new : List Timestamp) (hbuf : buf ≠ []) :
    (accumulateImuStamps buf new).length + 1 = buf.length + new.length := by
  have hlen : buf.length ≠ 0 := by simpa using hbuf
  simp only [accumulateImuStamps, if_neg hlen, List.length_append,
    List.length_dropLast]
  omega

theorem accumulateImuStamps_ne_nil (buf new : List Timestamp) (hnew : new ≠ []) :
    accumulateImuStamps buf new ≠ [] := by
  unfold accumulateImuStamps
  split
  · exact hnew
  · simp [hnew]

theorem accumulate_foldl_length (ws : List (List Timestamp)) :
    ∀ buf : List Timestamp, buf ≠ [] → (∀ w ∈ ws, w ≠ []) →
      (ws.foldl accumulateImuStamps buf).length + ws.length =
        buf.length + (ws.map List.length).sum := by
  induction ws with
  | nil => intro buf _ _; simp
  | cons w ws ih =>
    intro buf hbuf hws
    have hw : w ≠ [] := hws w (by simp)
    have hstep : (accumulateImuStamps buf w).length + 1 = buf.length + w.length :=
      accumulateImuStamps_length buf w hbuf
    have hne : accumulateImuStamps buf w ≠ [] := accumulateImuStamps_ne_nil buf w hw
    have hrest := ih (accumulateImuStamps buf w) hne (fun x hx => hws x (by simp [hx]))
    simp only [List.foldl_cons, List.length_cons, List.map_cons, List.sum_cons]
    omega

/-- Appending `M` nonempty windows after a reset yields a buffer whose length
is the sum of the window lengths minus `M - 1` (stated without truncated
subtraction). -/
theorem accumulateImuRun_length (ws : List (List Timestamp)) (hne : ws ≠ [])
    (hws : ∀ w ∈ ws, w ≠ []) :
    (accumulateImuRun ws).length + ws.length = (ws.map List.length).sum + 1 := by
  cases ws with
  | nil => exact absurd rfl hne
  | cons w ws =>
    have hw : w ≠ [] := hws w (by simp)
    have h := accumulate_foldl_length ws w hw (fun x hx => hws x (by simp [hx]))
    simp only [accumulateImuRun, List.foldl_cons, accumulateImuStamps_nil]
    simp only [List.map_cons, List.sum_cons, List.length_cons]
    omega

/-- One accumulation step preserves strict monotonicity of the timestamps,
provided the buffer's final (boundary) timestamp does not exceed the incoming
window's first timestamp. -/
theorem accumulateImuStamps_chain (buf new : List Timestamp)
    (hb : buf.Chain' (· < ·)) (hn : new.Chain' (· < ·))
    (hle : ∀ x ∈ buf.getLast?, ∀ y ∈ new.head?, x ≤ y) :
    (accumulateImuStamps buf new).Chain' (· < ·) := by
  unfold accumulateImuStamps
  split
  · exact hn
  · rename_i hlen
    have hbuf : buf ≠ [] := by
      intro h; exact hlen (by simp [h])
    have hdecomp : buf.dropLast ++ [buf.getLast hbuf] = buf :=
      List.dropLast_append_getLast hbuf
    have hsplit := List.chain'_append.mp (hdecomp ▸ hb)
    refine List.chain'_append.mpr ⟨hsplit.1, hn, ?_⟩
    intro x hx y hy
    have hxlast : x < buf.getLast hbuf := by
      have := hsplit.2.2 x hx (buf.getLast hbuf) (by simp)
      exact this
    have hlasty : buf.getLast hbuf ≤ y := by
      refine hle (buf.getLast hbuf) ?_ y hy
      simp [List.getLast?_eq_getLast buf hbuf]
    exact Nat.lt_of_lt_of_le hxlast hlasty

/-- Executable strict-increase check on a timestamp row. -/
def strictlyIncreasing : List Timestamp → Bool
  | [] => true
  | [_] => true
  | a :: b :: t => decide (a < b) && strictlyIncreasing (b :: t)

theorem strictlyIncreasing_iff (l : List Timestamp) :
    strictlyIncreasing l = true ↔ l.Chain' (· < ·) := by
  induction l with
  | nil => simp [strictlyIncreasing]
  | cons a t ih =>
    cases t with
    | nil => simp [strictlyIncreasing]
    | cons b t' =>
      simp only [strictlyIncreasing, Bool.and_eq_true, decide_eq_true_eq,
        List.chain'_cons, ih]

/-- Data produced by the visualization-mode switch in `processKeyframe` and
consumed when building the visualizer payload. -/
structure VizData where
  mesh_2d : List Nat := []
  points_with_id : List Nat := []
  lmk_id_to_lmk_type_map : List Nat := []
  mesher_output_payload : MesherOutputPayload := {}
  points_3d : List Nat := []

/-- The visualization-mode switch of `Pipeline::processKeyframe`
(lines 315-376): per configured mode it performs exactly one optional
computation and fills the corresponding visualization data. -/
def vizTypeDispatch (cfg : Config) (world : WorldModel) : VizData × List Event :=
  match cfg.viz_type with
  | VisualizationType.mesh2d =>
    ({ mesh_2d := world.frontend.mesh2dOfLkf }, [Event.createMesh2D])
  | VisualizationType.mesh2dSparse =>
    ({ mesh_2d := world.frontend.mesh2dStereoOfLkf }, [Event.createMesh2dStereo])
  | VisualizationType.mesh2dTo3dSparse =>
    ({ points_with_id := world.backend.lmkMapMinObsFiltered
       lmk_id_to_lmk_type_map :=
         if cfg.visualize_lmk_type then world.backend.lmkTypeMap else []
       mesher_output_payload := world.mesherPop.getD {} },
     [Event.getMapLmkIdsTo3dPointsInTimeHorizon true cfg.visualize_lmk_type,
      Event.pushMesherInput,
      Event.pop QueueId.mesherOutput true] ++
       (if world.mesherPop.isNone then [Event.warnMesherOutputMissing] else []))
  | VisualizationType.pointcloudRepeatedpoints =>
    ({ points_3d := world.backend.points3d }, [Event.get3DPoints])
  | VisualizationType.pointcloud =>
    ({ points_with_id := world.backend.lmkMapFullHorizon },
     [Event.getMapLmkIdsTo3dPointsInTimeHorizon false false])
  | VisualizationType.none => ({}, [])

/-- Model of `Pipeline::spinDisplayOnce`: display when the visualizer produced
an output, otherwise log that the visualizer is lagging. -/
def spinDisplayOnce : Option VisualizerOutputPayload → List Event
  | some p =>
    (if p.visualization_type ≠ VisualizationType.none
       then [Event.windowSpinOnce] else []) ++
      [Event.displayImages p.images_to_display.length]
  | Option.none => [Event.warnVisualizerLagging]

/-- The visualizer payload `processKeyframe` builds from the configuration,
the visualization data of the mode switch, the optional semantic-segmentation
callback's colors, and the keyframe timestamp. -/
def mkVisualizerPayload (cfg : Config) (world : WorldModel) (vd : VizData)
    (timestamp_k : Timestamp) : VisualizerInputPayload :=
  { visualization_type := cfg.viz_type
    mesh_2d := vd.mesh_2d
    mesh_3d_colors :=
      match world.semanticCallback with
      | some f =>
        f vd.mesher_output_payload.mesh_2d vd.mesher_output_payload.mesh_3d
      | Option.none => 0
    mesher_output_payload := vd.mesher_output_payload
    points_with_id := vd.points_with_id
    lmk_id_to_lmk_type_map := vd.lmk_id_to_lmk_type_map
    points_3d := vd.points_3d
    timestamp := timestamp_k }

/-- Result of one keyframe dispatch: the events performed, whether the call
hit a `LOG(FATAL)` (which terminates the process), and the final value behind
the `statusSmartStereoMeasurements` pointer. -/
structure KeyframeResult where
  events : List Event
  fatal : Bool
  statusSmartStereoMeasurements : StatusSmartStereoMeasurements
  deriving Repr

/-- Model of `Pipeline::processKeyframe` (lines 225-416).  With feature
selection enabled the selector runs, writes through the pointer, and the call
dies at `LOG(FATAL)`; otherwise the backend payload is pushed, the backend
output is popped blockingly, the visualization switch runs, and with
visualization enabled the visualizer payload is pushed, its output popped
blockingly, and displayed. -/
def processKeyframe (cfg : Config) (world : WorldModel) (_k : Nat)
    (ssm : StatusSmartStereoMeasurements)
    (timestamp_k : Timestamp) (_timestamp_lkf : Timestamp)
    (imu_stamps : List Timestamp) (imu_accgyr : List ImuSample) :
    KeyframeResult :=
  if cfg.use_feature_selection then
    { events := [Event.featureSelect, Event.logFatalFeatureSelection]
      fatal := true
      statusSmartStereoMeasurements := world.featureSelectResult ssm }
  else
    let payload : VioBackEndInputPayload :=
      { timestamp := timestamp_k
        statusSmartStereoMeasurements := ssm
        kfTrackingStatus_stereo := world.frontend.kfTrackingStatus_stereo
        imu_stamps := imu_stamps
        imu_accgyr := imu_accgyr
        relativePoseBodyStereo := world.frontend.relativePoseBodyStereo }
    let backendEvents :=
      [Event.pushBackendInput payload, Event.pop QueueId.backendOutput true]
    let vd := (vizTypeDispatch cfg world).1
    let vizEvents := (vizTypeDispatch cfg world).2
    let visualizerEvents :=
      if cfg.visualize then
        [Event.pushVisualizerInput (mkVisualizerPayload cfg world vd timestamp_k),
         Event.pop QueueId.visualizerOutput true] ++
          spinDisplayOnce world.visualizerPop
      else []
    { events := backendEvents ++ vizEvents ++ visualizerEvents
      fatal := false
      statusSmartStereoMeasurements := ssm }

/-- Orchestrator state.  The first three fields model the static locals of
`Pipeline::spin` / `Pipeline::spinOnce` (`is_initialized`, the accumulated
IMU window, `timestamp_lkf`); `km1_isKeyframe` is modelled from the spec: the
keyframe flag the Frontend reported for the previously processed frame, which
is what the dispatch condition reads under the spec's one-frame-lag rule. -/
structure PipelineState where
  is_initialized : Bool := false
  imu_stamps_lkf_to_curr_f : List Timestamp := []
  imu_accgyr_lkf_to_curr_f : List ImuSample := []
  timestamp_lkf : Timestamp := 0
  km1_isKeyframe : Bool := false

/-- The accumulated timestamp window `spinOnce` computes before tracking:
stored verbatim when the buffer is empty, otherwise the buffer minus its
final (interpolated boundary) column followed by the packet's full window. -/
def spinOnceStamps (st : PipelineState) (pkt : StereoImuSyncPacket) :
    List Timestamp :=
  if st.imu_stamps_lkf_to_curr_f.length = 0 then pkt.imu_stamps
  else st.imu_stamps_lkf_to_curr_f.dropLast ++ pkt.imu_stamps

/-- The accumulated sample window `spinOnce` computes, mirroring
`spinOnceStamps` column for column (the source branches on the timestamp
buffer's column count). -/
def spinOnceAccgyr (st : PipelineState) (pkt : StereoImuSyncPacket) :
    List ImuSample :=
  if st.imu_stamps_lkf_to_curr_f.length = 0 then pkt.imu_accgyr
  else st.imu_accgyr_lkf_to_curr_f.dropLast ++ pkt.imu_accgyr

/-- Model of `Pipeline::spinOnce` (lines 121-223): accumulate the packet's
IMU window, preintegrate, run the Frontend on the current frame, and if the
previously processed frame was reported a keyframe, dispatch the keyframe,
clear the accumulation buffer and advance `timestamp_lkf` to the current
frame's timestamp.  Returns the new state, the events, and the fatal flag. -/
def spinOnce (cfg : Config) (world : WorldModel) (st : PipelineState)
    (pkt : StereoImuSyncPacket) : PipelineState × List Event × Bool :=
  let imu_stamps' := spinOnceStamps st pkt
  let imu_accgyr' := spinOnceAccgyr st pkt
  let ssm := world.frontend.processStereoFrame pkt.frameId
  let preEvents :=
    [Event.preintegrateGyroMeasurements imu_stamps'.length,
     Event.frontendProcess pkt.frameId]
  if st.km1_isKeyframe then
    let kr := processKeyframe cfg world pkt.frameId ssm pkt.timestamp
      st.timestamp_lkf imu_stamps' imu_accgyr'
    ({ st with
        imu_stamps_lkf_to_curr_f := []
        imu_accgyr_lkf_to_curr_f := []
        timestamp_lkf := pkt.timestamp
        km1_isKeyframe := world.frontend.isKeyframe pkt.frameId },
     preEvents ++ kr.events, kr.fatal)
  else
    ({ st with
        imu_stamps_lkf_to_curr_f := imu_stamps'
        imu_accgyr_lkf_to_curr_f := imu_accgyr'
        km1_isKeyframe := world.frontend.isKeyframe pkt.frameId },
     preEvents, false)

/-- Model of `Pipeline::spin` (lines 96-118): the very first call runs
`initialize` and `launchThreads` and returns without treating the packet as
trackable; every later call delegates to `spinOnce`. -/
def spin (cfg : Config) (world : WorldModel) (st : PipelineState)
    (pkt : StereoImuSyncPacket) : PipelineState × List Event × Bool :=
  if st.is_initialized = false then
    ({ st with
        is_initialized := true
        timestamp_lkf := world.timestamp_first_lkf
        km1_isKeyframe := world.frontend.isKeyframe pkt.frameId },
     [Event.initPipeline pkt.frameId, Event.launchThreads], false)
  else
    spinOnce cfg world st pkt

/-- Driving the pipeline over a packet stream; a fatal dispatch terminates
the process, so no further packets are processed after it. -/
def spinAll (cfg : Config) (world : WorldModel) :
    PipelineState → List StereoImuSyncPacket → PipelineState × List Event
  | st, [] => (st, [])
  | st, pkt :: pkts =>
    match spin cfg world st pkt with
    | (st', evs, true) => (st', evs)
    | (st', evs, false) =>
      let rest := spinAll cfg world st' pkts
      (rest.1, evs ++ rest.2)

/-- Model of `Pipeline::stopThreads` (lines 628-641): shut down the six
channels and the three workers, input channel before output channel, worker
by worker. -/
def stopThreads : List Event :=
  [Event.shutdownQueue QueueId.backendInput,
   Event.shutdownQueue QueueId.backendOutput,
   Event.shutdownWorker WorkerId.backend,
   Event.shutdownQueue QueueId.mesherInput,
   Event.shutdownQueue QueueId.mesherOutput,
   Event.shutdownWorker WorkerId.mesher,
   Event.shutdownQueue QueueId.visualizerInput,
   Event.shutdownQueue QueueId.visualizerOutput,
   Event.shutdownWorker WorkerId.visualizer]

/-- Model of `Pipeline::joinThreads` (lines 643-647): unconditionally join
the three worker threads. -/
def joinThreads : List Event :=
  [Event.joinThread WorkerId.backend,
   Event.joinThread WorkerId.mesher,
   Event.joinThread WorkerId.visualizer]

/-- Model of `Pipeline::shutdown` (lines 422-430): set the shutdown flag,
stop the threads and queues, join the threads, and close log files when
logging is enabled.  The source keeps no guard, so a second call re-executes
every step. -/
def shutdown (cfg : Config) : List Event :=
  Event.setShutdownFlag :: (stopThreads ++ joinThreads) ++
    (if cfg.log_output then [Event.closeLogFiles] else [])

/-- Calling `shutdown` twice in a row, as the source allows. -/
def shutdownTwice (cfg : Config) : List Event :=
  shutdown cfg ++ shutdown cfg

/-- Recognizer for backend-input pushes. -/
def isBackendInputPush : Event → Bool
  | Event.pushBackendInput _ => true
  | _ => false

/-- Recognizer for visualizer-input pushes. -/
def isVisualizerInputPush : Event → Bool
  | Event.pushVisualizerInput _ => true
  | _ => false

/-- Recognizer for pops of a given queue. -/
def isPopOf (q : QueueId) : Event → Bool
  | Event.pop r _ => r == q
  | _ => false

/-- Recognizer for the Backend landmark-map query. -/
def isLmkMapQuery : Event → Bool
  | Event.getMapLmkIdsTo3dPointsInTimeHorizon _ _ => true
  | _ => false

/-- Recognizer for channel shutdowns. -/
def isQueueShutdown : Event → Bool
  | Event.shutdownQueue _ => true
  | _ => false

/-- Recognizer for thread joins. -/
def isJoin : Event → Bool
  | Event.joinThread _ => true
  | _ => false

/-- Recognizer for the mutually exclusive visualization-mode computations. -/
def isVizComputation : Event → Bool
  | Event.getMapLmkIdsTo3dPointsInTimeHorizon _ _ => true
  | Event.get3DPoints => true
  | Event.createMesh2D => true
  | Event.createMesh2dStereo => true
  | _ => false

/-- Payloads pushed onto the backend input queue, in order. -/
def backendPushedPayloads (evs : List Event) : List VioBackEndInputPayload :=
  evs.filterMap fun e =>
    match e with
    | Event.pushBackendInput p => some p
    | _ => Option.none

/-- Payloads pushed onto the visualizer input queue, in order. -/
def visualizerPushedPayloads (evs : List Event) : List VisualizerInputPayload :=
  evs.filterMap fun e =>
    match e with
    | Event.pushVisualizerInput p => some p
    | _ => Option.none

/-- Constant inertial sample used by the concrete scenarios. -/
def mkSample (v : Int) : ImuSample :=
  { ax := v, ay := v, az := v, gx := v, gy := v, gz := v }

/-- Packet builder for the concrete scenarios: the sample columns mirror the
timestamp columns one-to-one. -/
def mkPacket (k : Nat) (t : Timestamp) (stamps : List Timestamp) :
    StereoImuSyncPacket :=
  { frameId := k
    timestamp := t
    imu_stamps := stamps
    imu_accgyr := stamps.map fun s => mkSample (Int.ofNat s) }

/-- Stub Frontend reporting the given frames as keyframes. -/
def stubFrontend (kfFrames : List Nat) : FrontendModel :=
  { isKeyframe := fun k => kfFrames.contains k
    trackerStatus := fun k => k
    smartMeasurements := fun k => [k, k + 1]
    kfTrackingStatus_stereo := 0
    relativePoseBodyStereo := 0
    mesh2dOfLkf := [1]
    mesh2dStereoOfLkf := [2] }

/-- Stub world: keyframes at the given frames, worker outputs available. -/
def stubWorld (kfFrames : List Nat) : WorldModel :=
  { frontend := stubFrontend kfFrames
    backend :=
      { lmkMapFullHorizon := [10]
        lmkMapMinObsFiltered := [11]
        lmkTypeMap := [12]
        points3d := [13] }
    mesherPop := some { mesh_2d := [3], mesh_3d := [4] }
    visualizerPop :=
      some { visualization_type := VisualizationType.pointcloud
             images_to_display := [5] }
    featureSelectResult := fun s => { s with smartMeasurements := [] }
    semanticCallback := Option.none
    timestamp_first_lkf := 0 }

/-- Five frames, one per 10 time units; each packet's window has three
columns, the first duplicating the previous frame's boundary timestamp and
the last interpolated at the frame's own timestamp. -/
def pkts15 : List StereoImuSyncPacket :=
  [mkPacket 1 10 [0, 5, 10],
   mkPacket 2 20 [10, 15, 20],
   mkPacket 3 30 [20, 25, 30],
   mkPacket 4 40 [30, 35, 40],
   mkPacket 5 50 [40, 45, 50]]

/-- World in which only frame 3 is reported a keyframe. -/
def worldKf3 : WorldModel := stubWorld [3]

/-- Events of the four-frame run against `worldKf3` under the default
configuration. -/
def eventsKf3 : List Event :=
  (spinAll {} worldKf3 {} (pkts15.take 4)).2

/-- World in which frames 2 and 4 are reported keyframes. -/
def worldKf24 : WorldModel := stubWorld [2, 4]

/-- Events of the five-frame run against `worldKf24` under the default
configuration. -/
def eventsKf24 : List Event :=
  (spinAll {} worldKf24 {} pkts15).2

/-- Configuration selecting the repeated-points point-cloud mode. -/
def cfgPointcloudRepeated : Config :=
  { viz_type := VisualizationType.pointcloudRepeatedpoints }

/-- Events of the four-frame run against `worldKf3` in repeated-points
mode. -/
def eventsKf3Repeated : List Event :=
  (spinAll cfgPointcloudRepeated worldKf3 {} (pkts15.take 4)).2

theorem backendPushedPayloads_append (l₁ l₂ : List Event) :
    backendPushedPayloads (l₁ ++ l₂) =
      backendPushedPayloads l₁ ++ backendPushedPayloads l₂ :=
  List.filterMap_append l₁ l₂ _

theorem backendPushedPayloads_vizDispatch (cfg : Config) (world : WorldModel) :
    backendPushedPayloads (vizTypeDispatch cfg world).2 = [] := by
  unfold vizTypeDispatch
  cases cfg.viz_type <;>
    simp only [backendPushedPayloads, backendPushedPayloads_append] <;>
    first
      | rfl
      | (cases world.mesherPop <;> simp [List.filterMap])

theorem backendPushedPayloads_spinDisplayOnce (o : Option VisualizerOutputPayload) :
    backendPushedPayloads (spinDisplayOnce o) = [] := by
  cases o with
  | none => rfl
  | some p =>
    unfold spinDisplayOnce
    by_cases h : p.visualization_type = VisualizationType.none <;>
      simp [backendPushedPayloads, h, List.filterMap]

/-- The backend-input payload built at the start of a keyframe dispatch. -/
def mkBackendPayload (world : WorldModel) (ssm : StatusSmartStereoMeasurements)
    (timestamp_k : Timestamp) (imu_stamps : List Timestamp)
    (imu_accgyr : List ImuSample) : VioBackEndInputPayload :=
  { timestamp := timestamp_k
    statusSmartStereoMeasurements := ssm
    kfTrackingStatus_stereo := world.frontend.kfTrackingStatus_stereo
    imu_stamps := imu_stamps
    imu_accgyr := imu_accgyr
    relativePoseBodyStereo := world.frontend.relativePoseBodyStereo }

theorem processKeyframe_backendPayloads (cfg : Config) (world : WorldModel)
    (k : Nat) (ssm : StatusSmartStereoMeasurements) (t tlkf : Timestamp)
    (stamps : List Timestamp) (accgyr : List ImuSample)
    (hfs : cfg.use_feature_selection = false) :
    backendPushedPayloads
        (processKeyframe cfg world k ssm t tlkf stamps accgyr).events =
      [mkBackendPayload world ssm t stamps accgyr] := by
  unfold processKeyframe
  simp only [hfs, Bool.false_eq_true, if_false]
  by_cases hviz : cfg.visualize
  · simp only [hviz, if_true, backendPushedPayloads_append,
      backendPushedPayloads_vizDispatch, backendPushedPayloads_spinDisplayOnce]
    simp [backendPushedPayloads, mkBackendPayload, List.filterMap]
  · simp only [hviz, if_false, backendPushedPayloads_append,
      backendPushedPayloads_vizDispatch]
    simp [backendPushedPayloads, mkBackendPayload, List.filterMap]

/-- Recognizer for the backend edge: backend-input pushes and backend-output
pops. -/
def isBackendEdge (e : Event) : Bool :=
  isBackendInputPush e || isPopOf QueueId.backendOutput e

/-- The single optional visualization computation the switch performs for
each mode. -/
def vizExpected (cfg : Config) : List Event :=
  match cfg.viz_type with
  | VisualizationType.mesh2d => [Event.createMesh2D]
  | VisualizationType.mesh2dSparse => [Event.createMesh2dStereo]
  | VisualizationType.mesh2dTo3dSparse =>
    [Event.getMapLmkIdsTo3dPointsInTimeHorizon true cfg.visualize_lmk_type]
  | VisualizationType.pointcloudRepeatedpoints => [Event.get3DPoints]
  | VisualizationType.pointcloud =>
    [Event.getMapLmkIdsTo3dPointsInTimeHorizon false false]
  | VisualizationType.none => []

theorem vizDispatch_filter_vizComputation (cfg : Config) (world : WorldModel) :
    (vizTypeDispatch cfg world).2.filter isVizComputation = vizExpected cfg := by
  unfold vizTypeDispatch vizExpected
  cases cfg.viz_type <;> (try rfl) <;>
    (cases world.mesherPop <;> simp [isVizComputation])

theorem spinDisplayOnce_filter_vizComputation (o : Option VisualizerOutputPayload) :
    (spinDisplayOnce o).filter isVizComputation = [] := by
  cases o with
  | none => rfl
  | some p =>
    unfold spinDisplayOnce
    by_cases h : p.visualization_type = VisualizationType.none <;>
      simp [h, isVizComputation]

theorem vizDispatch_filter_backendEdge (cfg : Config) (world : WorldModel) :
    (vizTypeDispatch cfg world).2.filter isBackendEdge = [] := by
  unfold vizTypeDispatch
  cases cfg.viz_type <;> (try rfl) <;>
    (cases world.mesherPop <;> simp [isBackendEdge, isBackendInputPush, isPopOf])

theorem spinDisplayOnce_filter_backendEdge (o : Option VisualizerOutputPayload) :
    (spinDisplayOnce o).filter isBackendEdge = [] := by
  cases o with
  | none => rfl
  | some p =>
    unfold spinDisplayOnce
    by_cases h : p.visualization_type = VisualizationType.none <;>
      simp [h, isBackendEdge, isBackendInputPush, isPopOf]

theorem processKeyframe_filter_backendEdge (cfg : Config) (world : WorldModel)
    (k : Nat) (ssm : StatusSmartStereoMeasurements) (t tlkf : Timestamp)
    (stamps : List Timestamp) (accgyr : List ImuSample)
    (hfs : cfg.use_feature_selection = false) :
    (processKeyframe cfg world k ssm t tlkf stamps accgyr).events.filter
        isBackendEdge =
      [Event.pushBackendInput (mkBackendPayload world ssm t stamps accgyr),
       Event.pop QueueId.backendOutput true] := by
  unfold processKeyframe
  simp only [hfs, Bool.false_eq_true, if_false]
  by_cases hviz : cfg.visualize <;>
    simp [hviz, List.filter_append, vizDispatch_filter_backendEdge,
      spinDisplayOnce_filter_backendEdge, isBackendEdge, isBackendInputPush,
      isPopOf, mkBackendPayload]

theorem visualizerPushedPayloads_append (l₁ l₂ : List Event) :
    visualizerPushedPayloads (l₁ ++ l₂) =
      visualizerPushedPayloads l₁ ++ visualizerPushedPayloads l₂ :=
  List.filterMap_append l₁ l₂ _

theorem visualizerPushedPayloads_vizDispatch (cfg : Config) (world : WorldModel) :
    visualizerPushedPayloads (vizTypeDispatch cfg world).2 = [] := by
  unfold vizTypeDispatch
  cases cfg.viz_type <;> (try rfl) <;>
    (cases world.mesherPop <;> simp [visualizerPushedPayloads, List.filterMap])

theorem visualizerPushedPayloads_spinDisplayOnce
    (o : Option VisualizerOutputPayload) :
    visualizerPushedPayloads (spinDisplayOnce o) = [] := by
  cases o with
  | none => rfl
  | some p =>
    unfold spinDisplayOnce
    by_cases h : p.visualization_type = VisualizationType.none <;>
      simp [visualizerPushedPayloads, h, List.filterMap]

theorem processKeyframe_visualizerPayloads (cfg : Config) (world : WorldModel)
    (k : Nat) (ssm : StatusSmartStereoMeasurements) (t tlkf : Timestamp)
    (stamps : List Timestamp) (accgyr : List ImuSample)
    (hfs : cfg.use_feature_selection = false) (hviz : cfg.visualize = true) :
    visualizerPushedPayloads
        (processKeyframe cfg world k ssm t tlkf stamps accgyr).events =
      [mkVisualizerPayload cfg world (vizTypeDispatch cfg world).1 t] := by
  unfold processKeyframe
  simp only [hfs, Bool.false_eq_true, if_false, hviz, if_true]
  simp only [visualizerPushedPayloads_append,
    visualizerPushedPayloads_vizDispatch,
    visualizerPushedPayloads_spinDisplayOnce]
  simp [visualizerPushedPayloads, List.filterMap]

theorem processKeyframe_filter_vizComputation (cfg : Config) (world : WorldModel)
    (k : Nat) (ssm : StatusSmartStereoMeasurements) (t tlkf : Timestamp)
    (stamps : List Timestamp) (accgyr : List ImuSample)
    (hfs : cfg.use_feature_selection = false) :
    (processKeyframe cfg world k ssm t tlkf stamps accgyr).events.filter
        isVizComputation = vizExpected cfg := by
  unfold processKeyframe
  simp only [hfs, Bool.false_eq_true, if_false]
  by_cases hviz : cfg.visualize <;>
    simp [hviz, List.filter_append, vizDispatch_filter_vizComputation,
      spinDisplayOnce_filter_vizComputation, isVizComputation]

theorem logFatal_not_mem_vizDispatch (cfg : Config) (world : WorldModel) :
    Event.logFatalFeatureSelection ∉ (vizTypeDispatch cfg world).2 := by
  unfold vizTypeDispatch
  cases cfg.viz_type <;> (try simp) <;>
    (cases world.mesherPop <;> simp)

theorem logFatal_not_mem_spinDisplayOnce (o : Option VisualizerOutputPayload) :
    Event.logFatalFeatureSelection ∉ spinDisplayOnce o := by
  cases o with
  | none => simp [spinDisplayOnce]
  | some p =>
    unfold spinDisplayOnce
    by_cases h : p.visualization_type = VisualizationType.none <;> simp [h]

theorem vizDispatch_filter_lmkQuery_none (cfg : Config) (world : WorldModel)
    (h : cfg.viz_type = VisualizationType.none) :
    (vizTypeDispatch cfg world).2.filter isLmkMapQuery = [] := by
  simp [vizTypeDispatch, h]

theorem spinDisplayOnce_filter_lmkQuery (o : Option VisualizerOutputPayload) :
    (spinDisplayOnce o).filter isLmkMapQuery = [] := by
  cases o with
  | none => rfl
  | some p =>
    unfold spinDisplayOnce
    by_cases h : p.visualization_type = VisualizationType.none <;>
      simp [h, isLmkMapQuery]

theorem spin_filter_lmkQuery_none (cfg : Config) (world : WorldModel)
    (st : PipelineState) (pkt : StereoImuSyncPacket)
    (h : cfg.viz_type = VisualizationType.none) :
    (spin cfg world st pkt).2.1.filter isLmkMapQuery = [] := by
  unfold spin spinOnce processKeyframe
  by_cases hinit : st.is_initialized <;>
    by_cases hkm1 : st.km1_isKeyframe <;>
    by_cases hfs : cfg.use_feature_selection <;>
    by_cases hviz : cfg.visualize <;>
    simp [hinit, hkm1, hfs, hviz, List.filter_append, isLmkMapQuery,
      vizDispatch_filter_lmkQuery_none cfg world h,
      spinDisplayOnce_filter_lmkQuery]

theorem spinAll_filter_lmkQuery_none (cfg : Config) (world : WorldModel)
    (h : cfg.viz_type = VisualizationType.none) :
    ∀ (pkts : List StereoImuSyncPacket) (st : PipelineState),
      (spinAll cfg world st pkts).2.filter isLmkMapQuery = [] := by
  intro pkts
  induction pkts with
  | nil => intro st; rfl
  | cons p ps ih =>
    intro st
    have hspin := spin_filter_lmkQuery_none cfg world st p h
    rcases hs : spin cfg world st p with ⟨st', evs, b⟩
    rw [hs] at hspin
    cases b <;>
      simp [spinAll, hs, List.filter_append, hspin, ih]

theorem spinOnce_events_kf (cfg : Config) (world : WorldModel)
    (st : PipelineState) (pkt : StereoImuSyncPacket)
    (h : st.km1_isKeyframe = true) :
    (spinOnce cfg world st pkt).2.1 =
      [Event.preintegrateGyroMeasurements (spinOnceStamps st pkt).length,
       Event.frontendProcess pkt.frameId] ++
        (processKeyframe cfg world pkt.frameId
          (world.frontend.processStereoFrame pkt.frameId) pkt.timestamp
          st.timestamp_lkf (spinOnceStamps st pkt)
          (spinOnceAccgyr st pkt)).events := by
  unfold spinOnce
  simp [h]

theorem spinOnce_events_nonkf (cfg : Config) (world : WorldModel)
    (st : PipelineState) (pkt : StereoImuSyncPacket)
    (h : st.km1_isKeyframe = false) :
    (spinOnce cfg world st pkt).2.1 =
      [Event.preintegrateGyroMeasurements (spinOnceStamps st pkt).length,
       Event.frontendProcess pkt.frameId] := by
  unfold spinOnce
  simp [h]

theorem spinOnce_state_kf (cfg : Config) (world : WorldModel)
    (st : PipelineState) (pkt : StereoImuSyncPacket)
    (h : st.km1_isKeyframe = true) :
    (spinOnce cfg world st pkt).1 =
      { st with
          imu_stamps_lkf_to_curr_f := []
          imu_accgyr_lkf_to_curr_f := []
          timestamp_lkf := pkt.timestamp
          km1_isKeyframe := world.frontend.isKeyframe pkt.frameId } := by
  unfold spinOnce
  simp [h]

theorem spinOnce_state_nonkf (cfg : Config) (world : WorldModel)
    (st : PipelineState) (pkt : StereoImuSyncPacket)
    (h : st.km1_isKeyframe = false) :
    (spinOnce cfg world st pkt).1 =
      { st with
          imu_stamps_lkf_to_curr_f := spinOnceStamps st pkt
          imu_accgyr_lkf_to_curr_f := spinOnceAccgyr st pkt
          km1_isKeyframe := world.frontend.isKeyframe pkt.frameId } := by
  unfold spinOnce
  simp [h]

theorem spinOnceStamps_length_eq (st : PipelineState) (pkt : StereoImuSyncPacket)
    (hst : st.imu_stamps_lkf_to_curr_f.length =
      st.imu_accgyr_lkf_to_curr_f.length)
    (hpkt : pkt.imu_stamps.length = pkt.imu_accgyr.length) :
    (spinOnceStamps st pkt).length = (spinOnceAccgyr st pkt).length := by
  unfold spinOnceStamps spinOnceAccgyr
  split
  · exact hpkt
  · simp only [List.length_append, List.length_dropLast]
    omega

theorem spinOnce_backendPayload_map (cfg : Config) (world : WorldModel)
    (st : PipelineState) (pkt : StereoImuSyncPacket)
    (hfs : cfg.use_feature_selection = false) :
    (backendPushedPayloads (spinOnce cfg world st pkt).2.1).map
        (fun p => p.statusSmartStereoMeasurements) =
      (if st.km1_isKeyframe then [world.frontend.processStereoFrame pkt.frameId]
       else []) := by
  cases hkm1 : st.km1_isKeyframe with
  | true =>
    rw [spinOnce_events_kf cfg world st pkt hkm1, backendPushedPayloads_append,
      processKeyframe_backendPayloads _ _ _ _ _ _ _ _ hfs]
    simp [backendPushedPayloads, List.filterMap, mkBackendPayload]
  | false =>
    rw [spinOnce_events_nonkf cfg world st pkt hkm1]
    simp [backendPushedPayloads, List.filterMap]

/-- Claim C1 as stated is false: in a run where only frame 3 is reported a
keyframe, the single keyframe dispatch does fire while processing frame 4,
but the backend payload it pushes carries the TrackingResult computed when
processing frame 4 itself, which differs from the TrackingResult computed
when processing frame 3. -/
theorem c1_counterexample :
    ((backendPushedPayloads eventsKf3).map
        (fun p => p.statusSmartStereoMeasurements) =
      [worldKf3.frontend.processStereoFrame 4]) ∧
    (backendPushedPayloads (spinAll {} worldKf3 {} (pkts15.take 3)).2 = []) ∧
    worldKf3.frontend.processStereoFrame 4 ≠
      worldKf3.frontend.processStereoFrame 3 := by
  decide

/-- Claim C1 (amended): for every post-bootstrap frame, keyframe dispatch is
invoked exactly when the previous frame was reported a keyframe — so a frame
k marked keyframe triggers dispatch while processing frame k + 1 — but the
dispatch receives the TrackingResult computed for the current frame k + 1,
not the one computed when processing frame k. -/
theorem c1_dispatch_lag_with_current_result (cfg : Config) (world : WorldModel)
    (st : PipelineState) (pkt : StereoImuSyncPacket)
    (hfs : cfg.use_feature_selection = false) :
    ((backendPushedPayloads (spinOnce cfg world st pkt).2.1).map
        (fun p => p.statusSmartStereoMeasurements) =
      (if st.km1_isKeyframe
       then [world.frontend.processStereoFrame pkt.frameId] else [])) ∧
    ((spinOnce cfg world st pkt).1.km1_isKeyframe =
      world.frontend.isKeyframe pkt.frameId) := by
  refine ⟨spinOnce_backendPayload_map cfg world st pkt hfs, ?_⟩
  unfold spinOnce
  by_cases hkm1 : st.km1_isKeyframe <;> simp [hkm1]

theorem c1_dispatch_lag_with_current_result_witness :
    (({} : Config).use_feature_selection = false) ∧
    ((backendPushedPayloads
        (spinOnce {} worldKf3
          { is_initialized := true, km1_isKeyframe := true }
          (mkPacket 4 40 [30, 35, 40])).2.1).map
        (fun p => p.statusSmartStereoMeasurements) =
      [worldKf3.frontend.processStereoFrame 4]) := by
  refine ⟨rfl, ?_⟩
  have h := (c1_dispatch_lag_with_current_result {} worldKf3
    { is_initialized := true, km1_isKeyframe := true }
    (mkPacket 4 40 [30, 35, 40]) rfl).1
  simpa using h

/-- Claim C2 as stated is false on its sample-count formula: with N = 1
(frame 2 not a keyframe, frame 3 a keyframe, every packet window 3 columns
wide), the window handed to keyframe dispatch has 3 + 3 + 3 - 2 = 7 samples —
neither the claimed sum-minus-(N-1) over the scenario frames' windows
(3 + 3 - 0 = 6) nor over all appended windows (3 + 3 + 3 - 0 = 9). -/
theorem c2_counterexample :
    ((backendPushedPayloads eventsKf3).map (fun p => p.imu_stamps.length) =
      [7]) ∧
    ((backendPushedPayloads eventsKf3).map (fun p => p.imu_stamps.length) ≠
      [(3 + 3) - (1 - 1)]) ∧
    ((backendPushedPayloads eventsKf3).map (fun p => p.imu_stamps.length) ≠
      [(3 + 3 + 3) - (1 - 1)]) := by
  decide

/-- Claim C2 (amended): the accumulation step stores the packet's window
verbatim into an empty buffer and otherwise drops the buffer's final sample
before appending the full window; appending M windows after a reset yields
(sum of window lengths) - (M - 1) samples; strict timestamp monotonicity is
preserved given in-packet monotonicity and the boundary overlap property;
timestamp and sample counts stay aligned; and in the one-frame-lag run the
window dispatched after N non-keyframe frames followed by a keyframe
comprises the N + 2 windows appended since the reset (e.g. 3 + 3 + 3 - 2 = 7
samples for N = 1 with 3-column windows). -/
theorem c2_accumulation_amended :
    (∀ (cfg : Config) (world : WorldModel) (st : PipelineState)
        (pkt : StereoImuSyncPacket),
        st.km1_isKeyframe = false →
        (spinOnce cfg world st pkt).1.imu_stamps_lkf_to_curr_f =
            accumulateImuStamps st.imu_stamps_lkf_to_curr_f pkt.imu_stamps ∧
          (spinOnce cfg world st pkt).1.imu_accgyr_lkf_to_curr_f =
            (if st.imu_stamps_lkf_to_curr_f.length = 0 then pkt.imu_accgyr
             else st.imu_accgyr_lkf_to_curr_f.dropLast ++ pkt.imu_accgyr)) ∧
    (∀ ws : List (List Timestamp), ws ≠ [] → (∀ w ∈ ws, w ≠ []) →
        (accumulateImuRun ws).length + ws.length =
          (ws.map List.length).sum + 1) ∧
    (∀ buf new : List Timestamp, buf.Chain' (· < ·) → new.Chain' (· < ·) →
        (∀ x ∈ buf.getLast?, ∀ y ∈ new.head?, x ≤ y) →
        (accumulateImuStamps buf new).Chain' (· < ·)) ∧
    (∀ (cfg : Config) (world : WorldModel) (st : PipelineState)
        (pkt : StereoImuSyncPacket),
        st.imu_stamps_lkf_to_curr_f.length =
            st.imu_accgyr_lkf_to_curr_f.length →
        pkt.imu_stamps.length = pkt.imu_accgyr.length →
        (spinOnce cfg world st pkt).1.imu_stamps_lkf_to_curr_f.length =
            (spinOnce cfg world st pkt).1.imu_accgyr_lkf_to_curr_f.length ∧
          ∀ p ∈ backendPushedPayloads (spinOnce cfg world st pkt).2.1,
            p.imu_stamps.length = p.imu_accgyr.length) ∧
    (∀ p ∈ backendPushedPayloads eventsKf3,
        p.imu_stamps.length = 7 ∧ strictlyIncreasing p.imu_stamps = true ∧
          p.imu_stamps.length = p.imu_accgyr.length) := by
  refine ⟨?_, ?_, accumulateImuStamps_chain, ?_, ?_⟩
  · intro cfg world st pkt h
    rw [spinOnce_state_nonkf cfg world st pkt h]
    exact ⟨rfl, rfl⟩
  · exact accumulateImuRun_length
  · intro cfg world st pkt hst hpkt
    have hlen := spinOnceStamps_length_eq st pkt hst hpkt
    cases hkm1 : st.km1_isKeyframe with
    | true =>
      constructor
      · rw [spinOnce_state_kf cfg world st pkt hkm1]
        rfl
      · intro p hp
        rw [spinOnce_events_kf cfg world st pkt hkm1,
          backendPushedPayloads_append] at hp
        cases hfs : cfg.use_feature_selection with
        | true =>
          unfold processKeyframe at hp
          simp [hfs, backendPushedPayloads, List.filterMap] at hp
        | false =>
          rw [processKeyframe_backendPayloads _ _ _ _ _ _ _ _ hfs] at hp
          simp only [backendPushedPayloads, List.filterMap, List.mem_append,
            List.mem_singleton] at hp
          rcases hp with hp | hp
          · simp at hp
          · subst hp
            exact hlen
    | false =>
      constructor
      · rw [spinOnce_state_nonkf cfg world st pkt hkm1]
        exact hlen
      · intro p hp
        rw [spinOnce_events_nonkf cfg world st pkt hkm1] at hp
        simp [backendPushedPayloads, List.filterMap] at hp
  · decide

theorem c2_accumulation_amended_witness :
    ((accumulateImuRun [[0, 5], [5, 9]]).length + 2 = 5) ∧
    ((accumulateImuStamps [0, 5] [5, 9]).Chain' (· < ·)) := by
  constructor
  · exact c2_accumulation_amended.2.1 [[0, 5], [5, 9]] (by decide)
      (by intro w hw; fin_cases hw <;> decide)
  · refine c2_accumulation_amended.2.2.1 [0, 5] [5, 9]
      ((strictlyIncreasing_iff [0, 5]).mp (by decide))
      ((strictlyIncreasing_iff [5, 9]).mp (by decide)) ?_
    intro x hx y hy
    simp at hx hy
    subst hx
    subst hy
    exact Nat.le_refl 5

/-- Claim C3 records a non-blocking visualizer-output check, but the code
performs a blocking pop on the visualizer output channel during keyframe
dispatch (the warn-and-skip branch of `spinDisplayOnce` is reachable only for
the empty payload a shut-down channel returns). -/
theorem c3_visualizer_pop_is_blocking :
    (eventsKf3.filter (isPopOf QueueId.visualizerOutput) =
      [Event.pop QueueId.visualizerOutput true]) ∧
    (Event.pop QueueId.visualizerOutput false ∉ eventsKf3) := by
  decide

/-- Claim C4: the very first `spin` call only runs `initialize` and
`launchThreads` and returns — not appending the packet's inertial samples and
not invoking the Frontend — while every later call delegates to `spinOnce`
exactly once. -/
theorem c4_bootstrap_swallows_first_packet (cfg : Config) (world : WorldModel)
    (st : PipelineState) (pkt : StereoImuSyncPacket) :
    (st.is_initialized = false →
        (spin cfg world st pkt).2.1 =
            [Event.initPipeline pkt.frameId, Event.launchThreads] ∧
          (spin cfg world st pkt).1.imu_stamps_lkf_to_curr_f =
            st.imu_stamps_lkf_to_curr_f ∧
          (spin cfg world st pkt).1.imu_accgyr_lkf_to_curr_f =
            st.imu_accgyr_lkf_to_curr_f ∧
          (spin cfg world st pkt).1.is_initialized = true ∧
          (spin cfg world st pkt).2.2 = false) ∧
    (st.is_initialized = true →
        spin cfg world st pkt = spinOnce cfg world st pkt) := by
  constructor
  · intro h
    unfold spin
    simp [h]
  · intro h
    unfold spin
    simp [h]

theorem c4_bootstrap_swallows_first_packet_witness :
    ((spin {} worldKf3 {} (mkPacket 1 10 [0, 5, 10])).2.1 =
      [Event.initPipeline 1, Event.launchThreads]) ∧
    (spin {} worldKf3 { is_initialized := true } (mkPacket 2 20 [10, 15, 20]) =
      spinOnce {} worldKf3 { is_initialized := true }
        (mkPacket 2 20 [10, 15, 20])) := by
  constructor
  · exact ((c4_bootstrap_swallows_first_packet {} worldKf3 {}
      (mkPacket 1 10 [0, 5, 10])).1 rfl).1
  · exact (c4_bootstrap_swallows_first_packet {} worldKf3
      { is_initialized := true } (mkPacket 2 20 [10, 15, 20])).2 rfl

/-- Claim C5: keyframe dispatch dies at `LOG(FATAL)` exactly when feature
selection is enabled; with it disabled the fatal branch is never reached. -/
theorem c5_feature_selection_fatal (cfg : Config) (world : WorldModel)
    (k : Nat) (ssm : StatusSmartStereoMeasurements) (t tlkf : Timestamp)
    (stamps : List Timestamp) (accgyr : List ImuSample) :
    ((processKeyframe cfg world k ssm t tlkf stamps accgyr).fatal =
      cfg.use_feature_selection) ∧
    (Event.logFatalFeatureSelection ∈
        (processKeyframe cfg world k ssm t tlkf stamps accgyr).events ↔
      cfg.use_feature_selection = true) := by
  unfold processKeyframe
  by_cases h : cfg.use_feature_selection
  · simp [h]
  · by_cases hviz : cfg.visualize <;>
      simp [h, hviz, logFatal_not_mem_vizDispatch,
        logFatal_not_mem_spinDisplayOnce]

/-- Claim C6 as stated is false: in the repeated-points point-cloud mode a
keyframe dispatch performs no `getMapLmkIdsTo3dPointsInTimeHorizon` call at
all — it reads the backend's 3D points via `get3DPoints` — although the
claim asserts that both point-cloud modes query the full-horizon landmark
map. -/
theorem c6_counterexample :
    (eventsKf3Repeated.filter isLmkMapQuery = []) ∧
    (Event.get3DPoints ∈ eventsKf3Repeated) ∧
    (eventsKf3Repeated.countP isBackendInputPush = 1) := by
  decide

/-- Claim C6 (amended): per keyframe dispatch exactly one visualization
computation runs, fixed by the configured mode: mode "none" performs none
(and the landmark-map query never fires for the whole run); POINTCLOUD
queries the full-horizon landmark map unfiltered; POINTCLOUD_REPEATEDPOINTS
reads the backend's 3D points without a landmark-map query; the two mesh-only
2D modes build a 2D mesh from the latest keyframe's features with no backend
landmark query; MESH2DTo3Dsparse queries the landmark map filtered by the
minimum observation count and optionally annotated with landmark types. -/
theorem c6_viz_mode_dispatch_amended :
    (∀ (cfg : Config) (world : WorldModel) (k : Nat)
        (ssm : StatusSmartStereoMeasurements) (t tlkf : Timestamp)
        (stamps : List Timestamp) (accgyr : List ImuSample),
        cfg.use_feature_selection = false →
        (processKeyframe cfg world k ssm t tlkf stamps accgyr).events.filter
            isVizComputation = vizExpected cfg) ∧
    (∀ (cfg : Config) (world : WorldModel) (pkts : List StereoImuSyncPacket)
        (st : PipelineState),
        cfg.viz_type = VisualizationType.none →
        (spinAll cfg world st pkts).2.filter isLmkMapQuery = []) ∧
    (∀ cfg : Config,
        cfg.viz_type = VisualizationType.mesh2d ∨
          cfg.viz_type = VisualizationType.mesh2dSparse ∨
          cfg.viz_type = VisualizationType.pointcloudRepeatedpoints ∨
          cfg.viz_type = VisualizationType.none →
        (vizExpected cfg).filter isLmkMapQuery = []) := by
  refine ⟨processKeyframe_filter_vizComputation, ?_, ?_⟩
  · intro cfg world pkts st h
    exact spinAll_filter_lmkQuery_none cfg world h pkts st
  · intro cfg h
    rcases h with h | h | h | h <;> simp [vizExpected, h, isLmkMapQuery]

theorem c6_viz_mode_dispatch_amended_witness :
    ((processKeyframe cfgPointcloudRepeated worldKf3 4
        (worldKf3.frontend.processStereoFrame 4) 40 0 [30] [mkSample 30]
        ).events.filter isVizComputation = [Event.get3DPoints]) ∧
    ((spinAll { viz_type := VisualizationType.none } worldKf3 {}
        (pkts15.take 4)).2.filter isLmkMapQuery = []) := by
  constructor
  · have h := c6_viz_mode_dispatch_amended.1 cfgPointcloudRepeated worldKf3 4
      (worldKf3.frontend.processStereoFrame 4) 40 0 [30] [mkSample 30] rfl
    simpa [vizExpected, cfgPointcloudRepeated] using h
  · exact c6_viz_mode_dispatch_amended.2.1
      { viz_type := VisualizationType.none } worldKf3 (pkts15.take 4) {} rfl

/-- Claim C7: `shutdown` sets the flag first and shuts down all six channels
before any thread join, but the source keeps no guard against re-entry, so a
second `shutdown` call re-executes `joinThreads` and joins each already-joined
worker thread a second time (a `std::thread::join` error, violating the
claim's double-shutdown safety requirement). -/
theorem c7_shutdown_double_join :
    ((shutdown ({} : Config)).head? = some Event.setShutdownFlag) ∧
    ((shutdown ({} : Config)).countP isQueueShutdown = 6) ∧
    (((shutdown ({} : Config)).takeWhile (fun e => !(isJoin e))).countP
        isQueueShutdown = 6) ∧
    ((shutdown ({} : Config)).countP isJoin = 3) ∧
    ((shutdownTwice ({} : Config)).countP
        (fun e => e == Event.joinThread WorkerId.backend) = 2) ∧
    ((shutdownTwice ({} : Config)).countP
        (fun e => e == Event.joinThread WorkerId.mesher) = 2) ∧
    ((shutdownTwice ({} : Config)).countP
        (fun e => e == Event.joinThread WorkerId.visualizer) = 2) := by
  decide

/-- Claim C8: every keyframe dispatch touches the backend edge exactly twice —
one input push immediately followed by one blocking output pop; a
non-keyframe frame never touches it; and the end-to-end run over frames 1-5
with keyframes 2 and 4 produces exactly two backend pushes, two backend pops,
two visualizer pushes and two renders. -/
theorem c8_backend_edge_per_keyframe :
    (∀ (cfg : Config) (world : WorldModel) (k : Nat)
        (ssm : StatusSmartStereoMeasurements) (t tlkf : Timestamp)
        (stamps : List Timestamp) (accgyr : List ImuSample),
        cfg.use_feature_selection = false →
        (processKeyframe cfg world k ssm t tlkf stamps accgyr).events.filter
            isBackendEdge =
          [Event.pushBackendInput (mkBackendPayload world ssm t stamps accgyr),
           Event.pop QueueId.backendOutput true]) ∧
    (∀ (cfg : Config) (world : WorldModel) (st : PipelineState)
        (pkt : StereoImuSyncPacket),
        st.km1_isKeyframe = false →
        (spinOnce cfg world st pkt).2.1.filter isBackendEdge = []) ∧
    (eventsKf24.countP isBackendInputPush = 2 ∧
      eventsKf24.countP (isPopOf QueueId.backendOutput) = 2 ∧
      eventsKf24.countP isVisualizerInputPush = 2 ∧
      eventsKf24.countP (fun e => e == Event.windowSpinOnce) = 2) := by
  refine ⟨processKeyframe_filter_backendEdge, ?_, ?_⟩
  · intro cfg world st pkt h
    rw [spinOnce_events_nonkf cfg world st pkt h]
    rfl
  · decide

theorem c8_backend_edge_per_keyframe_witness :
    ((processKeyframe {} worldKf24 4 (worldKf24.frontend.processStereoFrame 4)
        40 0 [30] [mkSample 30]).events.filter isBackendEdge =
      [Event.pushBackendInput
        (mkBackendPayload worldKf24 (worldKf24.frontend.processStereoFrame 4)
          40 [30] [mkSample 30]),
       Event.pop QueueId.backendOutput true]) ∧
    ((spinOnce {} worldKf24 { is_initialized := true }
        (mkPacket 3 30 [20, 25, 30])).2.1.filter isBackendEdge = []) := by
  constructor
  · exact c8_backend_edge_per_keyframe.1 {} worldKf24 4
      (worldKf24.frontend.processStereoFrame 4) 40 0 [30] [mkSample 30] rfl
  · exact c8_backend_edge_per_keyframe.2.1 {} worldKf24
      { is_initialized := true } (mkPacket 3 30 [20, 25, 30]) rfl

/-- Claim C9: a failed blocking pop of the mesher output channel during
keyframe dispatch is not fatal — a warning is logged, dispatch continues, and
with visualization enabled the visualizer payload is still pushed carrying
the default-constructed (empty) mesher output. -/
theorem c9_mesher_pop_failure_tolerated (cfg : Config) (world : WorldModel)
    (k : Nat) (ssm : StatusSmartStereoMeasurements) (t tlkf : Timestamp)
    (stamps : List Timestamp) (accgyr : List ImuSample)
    (hfs : cfg.use_feature_selection = false)
    (hmode : cfg.viz_type = VisualizationType.mesh2dTo3dSparse)
    (hpop : world.mesherPop = Option.none) :
    ((processKeyframe cfg world k ssm t tlkf stamps accgyr).fatal = false) ∧
    (Event.warnMesherOutputMissing ∈
      (processKeyframe cfg world k ssm t tlkf stamps accgyr).events) ∧
    (cfg.visualize = true →
      (visualizerPushedPayloads
          (processKeyframe cfg world k ssm t tlkf stamps accgyr).events).map
        (fun p => p.mesher_output_payload) = [{}]) := by
  refine ⟨?_, ?_, ?_⟩
  · unfold processKeyframe
    simp [hfs]
  · unfold processKeyframe
    simp only [hfs, Bool.false_eq_true, if_false]
    simp [vizTypeDispatch, hmode, hpop]
  · intro hviz
    rw [processKeyframe_visualizerPayloads cfg world k ssm t tlkf stamps accgyr
      hfs hviz]
    simp [mkVisualizerPayload, vizTypeDispatch, hmode, hpop]

theorem c9_mesher_pop_failure_tolerated_witness :
    ((processKeyframe { viz_type := VisualizationType.mesh2dTo3dSparse }
        { worldKf3 with mesherPop := Option.none } 4
        (worldKf3.frontend.processStereoFrame 4) 40 0 [30]
        [mkSample 30]).fatal = false) ∧
    (Event.warnMesherOutputMissing ∈
      (processKeyframe { viz_type := VisualizationType.mesh2dTo3dSparse }
        { worldKf3 with mesherPop := Option.none } 4
        (worldKf3.frontend.processStereoFrame 4) 40 0 [30]
        [mkSample 30]).events) := by
  have h := c9_mesher_pop_failure_tolerated
    { viz_type := VisualizationType.mesh2dTo3dSparse }
    { worldKf3 with mesherPop := Option.none } 4
    (worldKf3.frontend.processStereoFrame 4) 40 0 [30] [mkSample 30]
    rfl rfl rfl
  exact ⟨h.1, h.2.1⟩

/-- Claim C10: with feature selection disabled, keyframe dispatch never
writes through its `statusSmartStereoMeasurements` pointer, and the
TrackingResult passed in is forwarded unmodified inside the single
`BackendInputPayload`. -/
theorem c10_tracking_result_unmodified (cfg : Config) (world : WorldModel)
    (k : Nat) (ssm : StatusSmartStereoMeasurements) (t tlkf : Timestamp)
    (stamps : List Timestamp) (accgyr : List ImuSample)
    (hfs : cfg.use_feature_selection = false) :
    ((processKeyframe cfg world k ssm t tlkf stamps accgyr
        ).statusSmartStereoMeasurements = ssm) ∧
    (∀ p ∈ backendPushedPayloads
        (processKeyframe cfg world k ssm t tlkf stamps accgyr).events,
      p.statusSmartStereoMeasurements = ssm) := by
  constructor
  · unfold processKeyframe
    simp [hfs]
  · intro p hp
    rw [processKeyframe_backendPayloads _ _ _ _ _ _ _ _ hfs] at hp
    simp only [List.mem_singleton] at hp
    subst hp
    rfl

theorem c10_tracking_result_unmodified_witness :
    (processKeyframe {} worldKf3 4 (worldKf3.frontend.processStereoFrame 4)
        40 0 [30] [mkSample 30]).statusSmartStereoMeasurements =
      worldKf3.frontend.processStereoFrame 4 := by
  exact (c10_tracking_result_unmodified {} worldKf3 4
    (worldKf3.frontend.processStereoFrame 4) 40 0 [30] [mkSample 30] rfl).1

end Kimera
